import Mathlib

/-!
Shallow embedding of the raqm-rs wrapper (src/src/lib.rs), a safe Rust binding
around the libraqm shaping engine.  The wrapper forwards each call to the
engine over FFI and maps the engine's boolean reply to a `Result`.

Modelling conventions:
* raw pointers (`*mut raqm_t`, `FT_Face`) are modelled as `Nat` addresses,
  `0` standing for the null pointer;
* the engine FFI surface is an oracle structure `EngineIface`: each wrapper
  method consults the oracle with exactly the arguments the source forwards;
* the glyph array returned by `raqm_get_glyphs` (pointer plus out-length) is
  modelled as `Option (List raqm_glyph_t)`, `none` standing for a null array
  pointer and the reported count being the list length;
* each wrapper method returns its result together with the list of engine
  calls it performs, so that resource claims (which call destroys the handle)
  are statable;
* machine-integer casts that can change a value (`usize as c_int`) are made
  explicit; casts that are the identity on the platform model
  (`c_uint as u32`, `c_int as i32`) are field copies, as in the source.
-/

/-- Error enum `RaqmError` from src/src/lib.rs. -/
inductive RaqmError where
  | CreateFailed
  | GetGlyphsFailed
  | Failed
deriving DecidableEq, Repr

/-- `raqm_glyph_t` from raqm_sys: glyph index (c_uint), advances and offsets
(c_int), cluster (u32), and the FT_Face pointer. -/
structure raqm_glyph_t where
  index : Nat
  x_advance : Int
  y_advance : Int
  x_offset : Int
  y_offset : Int
  cluster : Nat
  ftface : Nat
deriving DecidableEq, Repr

/-- Public `Glyph` struct from src/src/lib.rs. -/
structure Glyph where
  index : Nat
  x_advance : Int
  y_advance : Int
  x_offset : Int
  y_offset : Int
  cluster : Nat
  face : Nat
deriving DecidableEq, Repr

/-- `impl<T: Borrow<raqm_glyph_t>> From<T> for Glyph` (src/src/lib.rs lines
276-289): field-by-field conversion.  The source casts `index as u32`,
`x_advance as i32` etc.; `c_uint` is `u32` and `c_int` is `i32` on the
modelled platform, so those casts are the identity. -/
def Glyph.ofRaw (g : raqm_glyph_t) : Glyph :=
  { index := g.index
    x_advance := g.x_advance
    y_advance := g.y_advance
    x_offset := g.x_offset
    y_offset := g.y_offset
    cluster := g.cluster
    face := g.ftface }

/-- Public `Position` struct from src/src/lib.rs. -/
structure Position where
  index : Nat
  x : Int
  y : Int
deriving DecidableEq, Repr

/-- `Direction` enum from src/src/lib.rs. -/
inductive Direction where
  | Default
  | RightToLeft
  | LeftToRight
  | TopToBottom
deriving DecidableEq, Repr

/-- The `direction as u32` cast: the raqm_sys `raqm_direction_t` constants
(DEFAULT = 0, RTL = 1, LTR = 2, TTB = 3). -/
def Direction.toRaw : Direction → Nat
  | .Default => 0
  | .RightToLeft => 1
  | .LeftToRight => 2
  | .TopToBottom => 3

/-- The Rust `len as c_int` cast: a `usize` truncated to 32 bits and
reinterpreted as a two's-complement signed value. -/
def usize_to_c_int (n : Nat) : Int :=
  let r : Nat := n % 2 ^ 32
  if r < 2 ^ 31 then (r : Int) else (r : Int) - 2 ^ 32

/-- The `check_success!` macro from src/src/lib.rs lines 33-41: a `true`
engine reply becomes `Ok(())`, a `false` reply becomes `Err(Failed)`. -/
def check_success (code : Bool) : Except RaqmError Unit :=
  if code then .ok () else .error .Failed

/-- One FFI call into the engine, with the exact arguments the wrapper
forwards.  Used to record which engine entry points a wrapper method hits. -/
inductive EngineCall where
  | create
  | destroy (handle : Nat)
  | set_text (handle : Nat) (text : List Nat) (len : Nat)
  | set_text_utf8 (handle : Nat) (text : String) (len : Nat)
  | set_par_direction (handle : Nat) (dir : Nat)
  | set_language (handle : Nat) (lang : String) (start arg3 : Nat)
  | set_freetype_face (handle : Nat) (face : Nat)
  | set_freetype_face_range (handle : Nat) (face : Nat) (start arg4 : Nat)
  | set_freetype_load_flags (handle : Nat) (flags : Int)
  | add_font_feature (handle : Nat) (feature : String) (len : Int)
  | layout (handle : Nat)
  | get_glyphs (handle : Nat)
  | index_to_position (handle : Nat) (index : Nat)
  | position_to_index (handle : Nat) (x y : Int)
deriving DecidableEq, Repr

/-- Whether an engine call is a `raqm_destroy`. -/
def EngineCall.isDestroy : EngineCall → Bool
  | .destroy _ => true
  | _ => false

/-- The engine FFI surface consumed by the wrapper, as an oracle: one
response function per entry point, taking exactly the arguments the wrapper
forwards.  `create = 0` models `raqm_create()` returning null;
`get_glyphs = none` models `raqm_get_glyphs` returning a null array pointer.
`index_to_position` replies with (success, out-index, out-x, out-y);
`position_to_index` replies with (success, out-index). -/
structure EngineIface where
  create : Nat
  set_text : Nat → List Nat → Nat → Bool
  set_text_utf8 : Nat → String → Nat → Bool
  set_par_direction : Nat → Nat → Bool
  set_language : Nat → String → Nat → Nat → Bool
  set_freetype_face : Nat → Nat → Bool
  set_freetype_face_range : Nat → Nat → Nat → Nat → Bool
  set_freetype_load_flags : Nat → Int → Bool
  add_font_feature : Nat → String → Int → Bool
  layout : Nat → Bool
  get_glyphs : Nat → Option (List raqm_glyph_t)
  index_to_position : Nat → Nat → Bool × Nat × Int × Int
  position_to_index : Nat → Int → Int → Bool × Nat

/-- The `Raqm` session struct: the engine handle. -/
structure Raqm where
  ptr : Nat
deriving DecidableEq, Repr

/-- `Raqm::new` (src/src/lib.rs lines 49-56): call `raqm_create`; a non-null
handle yields `Ok`, a null handle yields `Err(CreateFailed)`. -/
def Raqm.new (E : EngineIface) : Except RaqmError Raqm × List EngineCall :=
  let ptr := E.create
  (if ptr ≠ 0 then .ok { ptr := ptr } else .error .CreateFailed, [.create])

/-- `Raqm::set_text_utf32` (lines 62-66): forwards the slice pointer and its
length to `raqm_set_text`. -/
def Raqm.set_text_utf32 (E : EngineIface) (rq : Raqm) (text : List Nat) :
    Except RaqmError Unit × List EngineCall :=
  (check_success (E.set_text rq.ptr text text.length),
   [.set_text rq.ptr text text.length])

/-- `Raqm::set_text` (lines 71-75): forwards the UTF-8 bytes and the byte
length to `raqm_set_text_utf8`. -/
def Raqm.set_text (E : EngineIface) (rq : Raqm) (text : String) :
    Except RaqmError Unit × List EngineCall :=
  (check_success (E.set_text_utf8 rq.ptr text text.utf8ByteSize),
   [.set_text_utf8 rq.ptr text text.utf8ByteSize])

/-- `Raqm::set_par_direction` (lines 92-97): casts the direction to its raw
discriminant and forwards it. -/
def Raqm.set_par_direction (E : EngineIface) (rq : Raqm) (direction : Direction) :
    Except RaqmError Unit × List EngineCall :=
  (check_success (E.set_par_direction rq.ptr direction.toRaw),
   [.set_par_direction rq.ptr direction.toRaw])

/-- `Raqm::set_language` (lines 103-107): forwards `start` and the third
argument (named `end` in the source) verbatim to `raqm_set_language`. -/
def Raqm.set_language (E : EngineIface) (rq : Raqm) (lang_code : String)
    (start arg3 : Nat) : Except RaqmError Unit × List EngineCall :=
  (check_success (E.set_language rq.ptr lang_code start arg3),
   [.set_language rq.ptr lang_code start arg3])

/-- `Raqm::set_freetype_face` (lines 110-114). -/
def Raqm.set_freetype_face (E : EngineIface) (rq : Raqm) (face : Nat) :
    Except RaqmError Unit × List EngineCall :=
  (check_success (E.set_freetype_face rq.ptr face),
   [.set_freetype_face rq.ptr face])

/-- `Raqm::set_freetype_face_range` (lines 121-130): forwards `face`,
`start` and the fourth argument (named `end` in the source) verbatim. -/
def Raqm.set_freetype_face_range (E : EngineIface) (rq : Raqm) (face : Nat)
    (start arg4 : Nat) : Except RaqmError Unit × List EngineCall :=
  (check_success (E.set_freetype_face_range rq.ptr face start arg4),
   [.set_freetype_face_range rq.ptr face start arg4])

/-- `Raqm::set_freetype_load_flags` (lines 137-141). -/
def Raqm.set_freetype_load_flags (E : EngineIface) (rq : Raqm) (flags : Int) :
    Except RaqmError Unit × List EngineCall :=
  (check_success (E.set_freetype_load_flags rq.ptr flags),
   [.set_freetype_load_flags rq.ptr flags])

/-- `Raqm::add_font_feature` (lines 151-155): forwards the feature string and
the caller-supplied `len` cast with `as c_int` — not the string's length. -/
def Raqm.add_font_feature (E : EngineIface) (rq : Raqm) (feature : String)
    (len : Nat) : Except RaqmError Unit × List EngineCall :=
  (check_success (E.add_font_feature rq.ptr feature (usize_to_c_int len)),
   [.add_font_feature rq.ptr feature (usize_to_c_int len)])

/-- `Raqm::layout` (lines 160-164). -/
def Raqm.layout (E : EngineIface) (rq : Raqm) :
    Except RaqmError Unit × List EngineCall :=
  (check_success (E.layout rq.ptr), [.layout rq.ptr])

/-- `Raqm::get_glyphs_mut_ptr` (lines 182-193): calls `raqm_get_glyphs`; a
non-null array yields the array and the reported count, a null array yields
`Err(GetGlyphsFailed)`. -/
def Raqm.get_glyphs_mut_ptr (E : EngineIface) (rq : Raqm) :
    Except RaqmError (List raqm_glyph_t × Nat) :=
  match E.get_glyphs rq.ptr with
  | some arr => .ok (arr, arr.length)
  | none => .error .GetGlyphsFailed

/-- `Raqm::glyphs` (lines 168-180): fetch the raw array and convert each
record with `Glyph::from`. -/
def Raqm.glyphs (E : EngineIface) (rq : Raqm) :
    Except RaqmError (List Glyph) × List EngineCall :=
  (match Raqm.get_glyphs_mut_ptr E rq with
   | .ok (arr, _) => .ok (arr.map Glyph.ofRaw)
   | .error e => .error e,
   [.get_glyphs rq.ptr])

/-- `Raqm::index_to_position` (lines 201-220): passes `index` as an inout
parameter and `x`, `y` as out parameters; on success builds a `Position`
from the values the engine wrote back. -/
def Raqm.index_to_position (E : EngineIface) (rq : Raqm) (index : Nat) :
    Except RaqmError Position × List EngineCall :=
  let r := E.index_to_position rq.ptr index
  ((check_success r.1).map
     (fun _ => { index := r.2.1, x := r.2.2.1, y := r.2.2.2 }),
   [.index_to_position rq.ptr index])

/-- `Raqm::position_to_index` (lines 224-232): passes `x`, `y` and an out
`index`; on success returns the index the engine wrote. -/
def Raqm.position_to_index (E : EngineIface) (rq : Raqm) (x y : Int) :
    Except RaqmError Nat × List EngineCall :=
  let r := E.position_to_index rq.ptr x y
  ((check_success r.1).map (fun _ => r.2), [.position_to_index rq.ptr x y])

/-- `impl Drop for Raqm` (lines 235-239): destroying a session performs the
single engine call `raqm_destroy(self.ptr)`. -/
def Raqm.drop_calls (rq : Raqm) : List EngineCall :=
  [.destroy rq.ptr]

/-!
The shaping engine itself (libraqm, behind raqm_sys) is an external
collaborator whose implementation is not part of this repository.  Its query
behavior is modelled below from the specification and from the wrapper's own
doc comments, which document the engine contract:
* query operations fail before `layout()` has run (spec section 8;
  `raqm_get_glyphs` reports a null array, the coordinate queries report
  `false`);
* after layout, `index_to_position` snaps the inout index to the nearest
  valid cluster boundary and reports the cursor position after that
  character — its visual left edge for a right-to-left character, its visual
  right edge for a left-to-right one (spec section 4.3; doc comment at
  src/src/lib.rs lines 195-200);
* after layout, `position_to_index` reports the character whose glyph
  horizontal extent contains x; for a position outside the text, the last
  character is chosen (doc comment at src/src/lib.rs lines 222-223).
-/

/-- Per-character visual extent of a laid-out cluster: the character index in
the text buffer, the horizontal extent [xStart, xEnd) of its glyph, the
baseline y, and whether the character is right-to-left. -/
structure ClusterExt where
  charIndex : Nat
  xStart : Int
  xEnd : Int
  y : Int
  rtl : Bool
deriving DecidableEq, Repr

/-- Modelled from the spec: the engine-held session state visible to query
calls — whether `layout()` has run, the post-layout glyph array, and the
post-layout per-character visual extents in visual order. -/
structure EngineState where
  laidOut : Bool
  glyphArr : List raqm_glyph_t
  clusters : List ClusterExt
deriving DecidableEq, Repr

/-- Modelled from the spec: snapping of an input character index to the
nearest valid cluster boundary of the layout (ties toward the earlier
cluster in visual order). -/
def snapCluster (cs : List ClusterExt) (i : Nat) : Option ClusterExt :=
  match cs with
  | [] => none
  | c :: rest =>
    match snapCluster rest i with
    | none => some c
    | some b =>
      if Nat.dist c.charIndex i ≤ Nat.dist b.charIndex i then some c else some b

/-- Modelled from the spec: `raqm_get_glyphs` reports a null array before
layout, and the glyph array after. -/
def EngineState.get_glyphs_model (s : EngineState) : Option (List raqm_glyph_t) :=
  if s.laidOut then some s.glyphArr else none

/-- Modelled from the spec: `raqm_index_to_position` fails before layout;
after layout it snaps the index to the nearest cluster boundary and writes
the cursor position after that character (left edge if right-to-left, right
edge otherwise). -/
def EngineState.index_to_position_model (s : EngineState) (i : Nat) :
    Bool × Nat × Int × Int :=
  if s.laidOut then
    match snapCluster s.clusters i with
    | some c => (true, c.charIndex, if c.rtl then c.xStart else c.xEnd, c.y)
    | none => (false, i, 0, 0)
  else (false, i, 0, 0)

/-- Modelled from the spec: `raqm_position_to_index` fails before layout;
after layout it writes the index of the character whose glyph extent
contains x, and for a position outside the text chooses the last character
(doc comment at src/src/lib.rs lines 222-223). -/
def EngineState.position_to_index_model (s : EngineState) (x _y : Int) :
    Bool × Nat :=
  if s.laidOut then
    match s.clusters.find? (fun c => decide (c.xStart ≤ x) && decide (x < c.xEnd)) with
    | some c => (true, c.charIndex)
    | none =>
      match s.clusters.getLast? with
      | some c => (true, c.charIndex)
      | none => (true, 0)
  else (false, 0)

/-- The oracle presented to the wrapper by an engine in state `s`: the four
query entry points follow the modelled engine contract; the configuration
entry points keep the responses of an arbitrary base oracle `E0`, since no
claim here depends on their engine-side dynamics. -/
def EngineState.iface (s : EngineState) (E0 : EngineIface) : EngineIface :=
  { E0 with
    get_glyphs := fun _ => s.get_glyphs_model
    index_to_position := fun _ i => s.index_to_position_model i
    position_to_index := fun _ x y => s.position_to_index_model x y }

/-! Helper lemmas about `check_success` and `snapCluster`. -/

theorem check_success_ok_iff (b : Bool) : check_success b = .ok () ↔ b = true := by
  cases b <;> simp [check_success]

theorem check_success_error_iff (b : Bool) (e : RaqmError) :
    check_success b = .error e ↔ (b = false ∧ e = .Failed) := by
  cases b <;> cases e <;> simp [check_success]

theorem check_success_map_ok_iff {α : Type} (b : Bool) (f : Unit → α) (a : α) :
    (check_success b).map f = .ok a ↔ (b = true ∧ a = f ()) := by
  cases b <;> simp [check_success, Except.map, eq_comm]

theorem check_success_map_error_iff {α : Type} (b : Bool) (f : Unit → α)
    (e : RaqmError) : (check_success b).map f = .error e ↔ (b = false ∧ e = .Failed) := by
  cases b <;> cases e <;> simp [check_success, Except.map]

theorem snapCluster_eq_none_iff (cs : List ClusterExt) (i : Nat) :
    snapCluster cs i = none ↔ cs = [] := by
  cases cs with
  | nil => simp [snapCluster]
  | cons a rest =>
    simp only [snapCluster]
    cases hr : snapCluster rest i with
    | none => simp
    | some b =>
      by_cases hd : Nat.dist a.charIndex i ≤ Nat.dist b.charIndex i <;> simp [hd]

theorem snapCluster_mem (cs : List ClusterExt) (i : Nat) (c : ClusterExt)
    (h : snapCluster cs i = some c) : c ∈ cs := by
  induction cs with
  | nil => simp [snapCluster] at h
  | cons a rest ih =>
    simp only [snapCluster] at h
    cases hr : snapCluster rest i with
    | none => rw [hr] at h; simp at h; simp [h]
    | some b =>
      rw [hr] at h
      by_cases hd : Nat.dist a.charIndex i ≤ Nat.dist b.charIndex i
      · simp [hd] at h; simp [h]
      · simp [hd] at h
        have := ih (h ▸ hr)
        exact List.mem_cons_of_mem _ this

theorem snapCluster_nearest (cs : List ClusterExt) (i : Nat) :
    ∀ c, snapCluster cs i = some c →
      ∀ c2 ∈ cs, Nat.dist c.charIndex i ≤ Nat.dist c2.charIndex i := by
  induction cs with
  | nil => intro c h; simp [snapCluster] at h
  | cons a rest ih =>
    intro c h c2 hc2
    simp only [snapCluster] at h
    cases hr : snapCluster rest i with
    | none =>
      rw [hr] at h
      simp at h
      have hrest : rest = [] := (snapCluster_eq_none_iff rest i).mp hr
      subst hrest
      simp at hc2
      simp [← h, hc2]
    | some b =>
      rw [hr] at h
      by_cases hd : Nat.dist a.charIndex i ≤ Nat.dist b.charIndex i
      · simp [hd] at h
        rcases List.mem_cons.mp hc2 with hca | hm
        · simp [← h, hca]
        · rw [← h]
          exact le_trans hd (ih b hr c2 hm)
      · simp [hd] at h
        rcases List.mem_cons.mp hc2 with hca | hm
        · rw [← h, hca]
          exact le_of_lt (lt_of_not_le hd)
        · rw [← h]
          exact ih b hr c2 hm

theorem snapCluster_isSome (cs : List ClusterExt) (i : Nat) (h : cs ≠ []) :
    ∃ c, snapCluster cs i = some c := by
  cases hr : snapCluster cs i with
  | none => exact absurd ((snapCluster_eq_none_iff cs i).mp hr) h
  | some c => exact ⟨c, rfl⟩

/-- The full success/failure contract of `check_success`: `Ok(())` exactly on
a `true` reply, `Err(Failed)` exactly on a `false` reply, and no other error
variant. -/
theorem check_success_spec (b : Bool) :
    (check_success b = .ok () ↔ b = true) ∧
    (check_success b = .error .Failed ↔ b = false) ∧
    ∀ e, check_success b = .error e → e = .Failed := by
  refine ⟨check_success_ok_iff b, ?_, ?_⟩
  · cases b <;> simp [check_success]
  · intro e he
    exact ((check_success_error_iff b e).mp he).2

/-- The contract of `check_success` composed with `Except::map`, as used by
`index_to_position` and `position_to_index`. -/
theorem check_success_map_spec {α : Type} (b : Bool) (f : Unit → α) :
    (((check_success b).map f = .ok (f ())) ↔ b = true) ∧
    ((check_success b).map f = .error .Failed ↔ b = false) ∧
    ∀ e, (check_success b).map f = .error e → e = .Failed := by
  refine ⟨?_, ?_, ?_⟩
  · cases b <;> simp [check_success, Except.map]
  · cases b <;> simp [check_success, Except.map]
  · intro e he
    exact ((check_success_map_error_iff b f e).mp he).2

/-- A concrete raw glyph record used to exercise the theorems. -/
def testRawGlyph : raqm_glyph_t :=
  { index := 42, x_advance := 600, y_advance := 0, x_offset := 1,
    y_offset := -2, cluster := 0, ftface := 5 }

/-- A concrete engine oracle used to exercise the theorems on specific
inputs: every configuration call succeeds, the handle is 7, and the queries
reply with fixed values. -/
def testEngine : EngineIface :=
  { create := 7
    set_text := fun _ _ _ => true
    set_text_utf8 := fun _ _ _ => true
    set_par_direction := fun _ _ => true
    set_language := fun _ _ _ _ => true
    set_freetype_face := fun _ _ => true
    set_freetype_face_range := fun _ _ _ _ => true
    set_freetype_load_flags := fun _ _ => true
    add_font_feature := fun _ _ _ => true
    layout := fun _ => true
    get_glyphs := fun _ => some [testRawGlyph]
    index_to_position := fun _ i => (true, i, 3, 4)
    position_to_index := fun _ _ _ => (true, 2) }

/-- The session owning handle 7, as created from `testEngine`. -/
def testRaqm : Raqm := { ptr := 7 }

/-- C1: every boolean-returning engine operation is wrapped so that `Ok(())`
is returned exactly when the engine replies `true`, `Err(Failed)` exactly
when it replies `false`, and no other error variant is ever produced by
these operations (for the two coordinate queries, success carries the
position built from the engine's out-parameters). -/
theorem C1_boolean_ops_error_mapping (E : EngineIface) (rq : Raqm)
    (t8 : String) (t32 : List Nat) (d : Direction) (lang : String)
    (ls la : Nat) (face fs fa : Nat) (flags : Int) (feat : String)
    (flen : Nat) (i : Nat) (x y : Int) :
    (((Raqm.set_text E rq t8).1 = .ok () ↔
        E.set_text_utf8 rq.ptr t8 t8.utf8ByteSize = true) ∧
      ((Raqm.set_text E rq t8).1 = .error .Failed ↔
        E.set_text_utf8 rq.ptr t8 t8.utf8ByteSize = false) ∧
      ∀ e, (Raqm.set_text E rq t8).1 = .error e → e = .Failed) ∧
    (((Raqm.set_text_utf32 E rq t32).1 = .ok () ↔
        E.set_text rq.ptr t32 t32.length = true) ∧
      ((Raqm.set_text_utf32 E rq t32).1 = .error .Failed ↔
        E.set_text rq.ptr t32 t32.length = false) ∧
      ∀ e, (Raqm.set_text_utf32 E rq t32).1 = .error e → e = .Failed) ∧
    (((Raqm.set_par_direction E rq d).1 = .ok () ↔
        E.set_par_direction rq.ptr d.toRaw = true) ∧
      ((Raqm.set_par_direction E rq d).1 = .error .Failed ↔
        E.set_par_direction rq.ptr d.toRaw = false) ∧
      ∀ e, (Raqm.set_par_direction E rq d).1 = .error e → e = .Failed) ∧
    (((Raqm.set_language E rq lang ls la).1 = .ok () ↔
        E.set_language rq.ptr lang ls la = true) ∧
      ((Raqm.set_language E rq lang ls la).1 = .error .Failed ↔
        E.set_language rq.ptr lang ls la = false) ∧
      ∀ e, (Raqm.set_language E rq lang ls la).1 = .error e → e = .Failed) ∧
    (((Raqm.set_freetype_face E rq face).1 = .ok () ↔
        E.set_freetype_face rq.ptr face = true) ∧
      ((Raqm.set_freetype_face E rq face).1 = .error .Failed ↔
        E.set_freetype_face rq.ptr face = false) ∧
      ∀ e, (Raqm.set_freetype_face E rq face).1 = .error e → e = .Failed) ∧
    (((Raqm.set_freetype_face_range E rq face fs fa).1 = .ok () ↔
        E.set_freetype_face_range rq.ptr face fs fa = true) ∧
      ((Raqm.set_freetype_face_range E rq face fs fa).1 = .error .Failed ↔
        E.set_freetype_face_range rq.ptr face fs fa = false) ∧
      ∀ e, (Raqm.set_freetype_face_range E rq face fs fa).1 = .error e →
        e = .Failed) ∧
    (((Raqm.set_freetype_load_flags E rq flags).1 = .ok () ↔
        E.set_freetype_load_flags rq.ptr flags = true) ∧
      ((Raqm.set_freetype_load_flags E rq flags).1 = .error .Failed ↔
        E.set_freetype_load_flags rq.ptr flags = false) ∧
      ∀ e, (Raqm.set_freetype_load_flags E rq flags).1 = .error e →
        e = .Failed) ∧
    (((Raqm.add_font_feature E rq feat flen).1 = .ok () ↔
        E.add_font_feature rq.ptr feat (usize_to_c_int flen) = true) ∧
      ((Raqm.add_font_feature E rq feat flen).1 = .error .Failed ↔
        E.add_font_feature rq.ptr feat (usize_to_c_int flen) = false) ∧
      ∀ e, (Raqm.add_font_feature E rq feat flen).1 = .error e →
        e = .Failed) ∧
    (((Raqm.layout E rq).1 = .ok () ↔ E.layout rq.ptr = true) ∧
      ((Raqm.layout E rq).1 = .error .Failed ↔ E.layout rq.ptr = false) ∧
      ∀ e, (Raqm.layout E rq).1 = .error e → e = .Failed) ∧
    (((Raqm.index_to_position E rq i).1 =
        .ok { index := (E.index_to_position rq.ptr i).2.1
              x := (E.index_to_position rq.ptr i).2.2.1
              y := (E.index_to_position rq.ptr i).2.2.2 } ↔
        (E.index_to_position rq.ptr i).1 = true) ∧
      ((Raqm.index_to_position E rq i).1 = .error .Failed ↔
        (E.index_to_position rq.ptr i).1 = false) ∧
      ∀ e, (Raqm.index_to_position E rq i).1 = .error e → e = .Failed) ∧
    (((Raqm.position_to_index E rq x y).1 =
        .ok (E.position_to_index rq.ptr x y).2 ↔
        (E.position_to_index rq.ptr x y).1 = true) ∧
      ((Raqm.position_to_index E rq x y).1 = .error .Failed ↔
        (E.position_to_index rq.ptr x y).1 = false) ∧
      ∀ e, (Raqm.position_to_index E rq x y).1 = .error e → e = .Failed) :=
  ⟨check_success_spec _, check_success_spec _, check_success_spec _,
   check_success_spec _, check_success_spec _, check_success_spec _,
   check_success_spec _, check_success_spec _, check_success_spec _,
   check_success_map_spec _ _, check_success_map_spec _ _⟩

/-- C1 witness: the contract evaluated against the concrete test engine. -/
theorem C1_boolean_ops_error_mapping_witness :
    ((Raqm.set_text testEngine testRaqm "ab").1 = .ok () ↔
      testEngine.set_text_utf8 testRaqm.ptr "ab" "ab".utf8ByteSize = true) ∧
    ((Raqm.layout testEngine testRaqm).1 = .error .Failed ↔
      testEngine.layout testRaqm.ptr = false) ∧
    (∀ e, (Raqm.position_to_index testEngine testRaqm 1 0).1 = .error e →
      e = .Failed) :=
  ⟨(C1_boolean_ops_error_mapping testEngine testRaqm "ab" [] .Default "en"
      0 2 5 0 2 0 "liga" 4 1 1 0).1.1,
   (C1_boolean_ops_error_mapping testEngine testRaqm "ab" [] .Default "en"
      0 2 5 0 2 0 "liga" 4 1 1 0).2.2.2.2.2.2.2.2.1.2.1,
   (C1_boolean_ops_error_mapping testEngine testRaqm "ab" [] .Default "en"
      0 2 5 0 2 0 "liga" 4 1 1 0).2.2.2.2.2.2.2.2.2.2.2.2⟩

/-- C7: `new()` returns `Err(CreateFailed)` exactly when `raqm_create`
returns a null handle, otherwise `Ok` with a session holding the non-null
handle; and no other wrapper operation ever produces `CreateFailed`. -/
theorem C7_create_failed_mapping (E : EngineIface) (rq : Raqm)
    (t8 : String) (t32 : List Nat) (d : Direction) (lang : String)
    (ls la : Nat) (face fs fa : Nat) (flags : Int) (feat : String)
    (flen : Nat) (i : Nat) (x y : Int) :
    ((Raqm.new E).1 = .error .CreateFailed ↔ E.create = 0) ∧
    (E.create ≠ 0 →
      (Raqm.new E).1 = .ok { ptr := E.create } ∧
      ∀ rq2, (Raqm.new E).1 = .ok rq2 → rq2.ptr ≠ 0) ∧
    (Raqm.set_text E rq t8).1 ≠ .error .CreateFailed ∧
    (Raqm.set_text_utf32 E rq t32).1 ≠ .error .CreateFailed ∧
    (Raqm.set_par_direction E rq d).1 ≠ .error .CreateFailed ∧
    (Raqm.set_language E rq lang ls la).1 ≠ .error .CreateFailed ∧
    (Raqm.set_freetype_face E rq face).1 ≠ .error .CreateFailed ∧
    (Raqm.set_freetype_face_range E rq face fs fa).1 ≠ .error .CreateFailed ∧
    (Raqm.set_freetype_load_flags E rq flags).1 ≠ .error .CreateFailed ∧
    (Raqm.add_font_feature E rq feat flen).1 ≠ .error .CreateFailed ∧
    (Raqm.layout E rq).1 ≠ .error .CreateFailed ∧
    (Raqm.glyphs E rq).1 ≠ .error .CreateFailed ∧
    (Raqm.index_to_position E rq i).1 ≠ .error .CreateFailed ∧
    (Raqm.position_to_index E rq x y).1 ≠ .error .CreateFailed := by
  refine ⟨?_, ?_, ?_, ?_, ?_, ?_, ?_, ?_, ?_, ?_, ?_, ?_, ?_, ?_⟩
  · by_cases h : E.create = 0 <;> simp [Raqm.new, h]
  · intro h
    refine ⟨by simp [Raqm.new, h], ?_⟩
    intro rq2 h2
    simp [Raqm.new, h] at h2
    rw [← h2]
    exact h
  all_goals
    first
    | (intro h
       have := (check_success_spec _).2.2 _ h
       cases this)
    | (intro h
       have := (check_success_map_spec _ _).2.2 _ h
       cases this)
    | (simp only [Raqm.glyphs, Raqm.get_glyphs_mut_ptr]
       cases E.get_glyphs rq.ptr <;> simp)

/-- C7 witness: the contract evaluated against the concrete test engine,
whose `create` returns the non-null handle 7. -/
theorem C7_create_failed_mapping_witness :
    ((Raqm.new testEngine).1 = .error .CreateFailed ↔ testEngine.create = 0) ∧
    (testEngine.create ≠ 0 →
      (Raqm.new testEngine).1 = .ok { ptr := testEngine.create } ∧
      ∀ rq2, (Raqm.new testEngine).1 = .ok rq2 → rq2.ptr ≠ 0) ∧
    (Raqm.layout testEngine testRaqm).1 ≠ .error .CreateFailed :=
  ⟨(C7_create_failed_mapping testEngine testRaqm "ab" [] .Default "en"
      0 2 5 0 2 0 "liga" 4 1 1 0).1,
   (C7_create_failed_mapping testEngine testRaqm "ab" [] .Default "en"
      0 2 5 0 2 0 "liga" 4 1 1 0).2.1,
   (C7_create_failed_mapping testEngine testRaqm "ab" [] .Default "en"
      0 2 5 0 2 0 "liga" 4 1 1 0).2.2.2.2.2.2.2.2.2.2.1⟩

/-- C9: the conversion from an engine glyph record to the public `Glyph` is
field-exact — every output field equals the corresponding input field — and
injective, so no field is dropped or transformed. -/
theorem C9_glyph_conversion_field_exact (g : raqm_glyph_t) :
    (Glyph.ofRaw g).index = g.index ∧
    (Glyph.ofRaw g).x_advance = g.x_advance ∧
    (Glyph.ofRaw g).y_advance = g.y_advance ∧
    (Glyph.ofRaw g).x_offset = g.x_offset ∧
    (Glyph.ofRaw g).y_offset = g.y_offset ∧
    (Glyph.ofRaw g).cluster = g.cluster ∧
    (Glyph.ofRaw g).face = g.ftface ∧
    ∀ g2, Glyph.ofRaw g = Glyph.ofRaw g2 → g = g2 := by
  refine ⟨rfl, rfl, rfl, rfl, rfl, rfl, rfl, ?_⟩
  intro g2 h
  cases g
  cases g2
  simp only [Glyph.ofRaw, Glyph.mk.injEq] at h
  simp [raqm_glyph_t.mk.injEq, h]

/-- C9 witness: the conversion evaluated on a concrete glyph record. -/
theorem C9_glyph_conversion_field_exact_witness :
    (Glyph.ofRaw testRawGlyph).index = testRawGlyph.index ∧
    (Glyph.ofRaw testRawGlyph).face = testRawGlyph.ftface :=
  ⟨(C9_glyph_conversion_field_exact testRawGlyph).1,
   (C9_glyph_conversion_field_exact testRawGlyph).2.2.2.2.2.2.1⟩

/-- C8: tearing a session down performs exactly one `raqm_destroy`, applied
to the session's own handle, from any state and with no failure result; and
no other wrapper operation ever issues a destroy call. -/
theorem C8_destroy_exactly_once (rq : Raqm) (E : EngineIface)
    (t8 : String) (t32 : List Nat) (d : Direction) (lang : String)
    (ls la : Nat) (face fs fa : Nat) (flags : Int) (feat : String)
    (flen : Nat) (i : Nat) (x y : Int) :
    Raqm.drop_calls rq = [.destroy rq.ptr] ∧
    ((Raqm.drop_calls rq).filter EngineCall.isDestroy).length = 1 ∧
    (Raqm.new E).2.all (fun c => !c.isDestroy) = true ∧
    (Raqm.set_text E rq t8).2.all (fun c => !c.isDestroy) = true ∧
    (Raqm.set_text_utf32 E rq t32).2.all (fun c => !c.isDestroy) = true ∧
    (Raqm.set_par_direction E rq d).2.all (fun c => !c.isDestroy) = true ∧
    (Raqm.set_language E rq lang ls la).2.all (fun c => !c.isDestroy) = true ∧
    (Raqm.set_freetype_face E rq face).2.all (fun c => !c.isDestroy) = true ∧
    (Raqm.set_freetype_face_range E rq face fs fa).2.all
      (fun c => !c.isDestroy) = true ∧
    (Raqm.set_freetype_load_flags E rq flags).2.all
      (fun c => !c.isDestroy) = true ∧
    (Raqm.add_font_feature E rq feat flen).2.all
      (fun c => !c.isDestroy) = true ∧
    (Raqm.layout E rq).2.all (fun c => !c.isDestroy) = true ∧
    (Raqm.glyphs E rq).2.all (fun c => !c.isDestroy) = true ∧
    (Raqm.index_to_position E rq i).2.all (fun c => !c.isDestroy) = true ∧
    (Raqm.position_to_index E rq x y).2.all (fun c => !c.isDestroy) = true :=
  ⟨rfl, rfl, rfl, rfl, rfl, rfl, rfl, rfl, rfl, rfl, rfl, rfl, rfl, rfl, rfl⟩

/-- A small-value injectivity fact about the `usize as c_int` cast. -/
theorem usize_to_c_int_small (n : Nat) (h : n < 2 ^ 31) :
    usize_to_c_int n = n := by
  have h32 : n < 2 ^ 32 := lt_trans h (by norm_num)
  show (if n % 2 ^ 32 < 2 ^ 31 then ((n % 2 ^ 32 : Nat) : Int)
        else ((n % 2 ^ 32 : Nat) : Int) - 2 ^ 32) = (n : Int)
  rw [Nat.mod_eq_of_lt h32, if_pos h]

/-- C10: `add_font_feature(feature, len)` hands the engine the
caller-supplied `len` cast with `as c_int` — never the feature string's byte
length — so whenever `len` differs from `feature.len()` (both in `c_int`
range), the length the engine receives differs from the string's length. -/
theorem C10_feature_len_forwarded (E : EngineIface) (rq : Raqm)
    (feature : String) (len : Nat) :
    (Raqm.add_font_feature E rq feature len).2 =
      [.add_font_feature rq.ptr feature (usize_to_c_int len)] ∧
    (Raqm.add_font_feature E rq feature len).1 =
      check_success (E.add_font_feature rq.ptr feature (usize_to_c_int len)) ∧
    (len ≠ feature.utf8ByteSize → len < 2 ^ 31 →
      feature.utf8ByteSize < 2 ^ 31 →
      usize_to_c_int len ≠ usize_to_c_int feature.utf8ByteSize) := by
  refine ⟨rfl, rfl, ?_⟩
  intro hne hl hf heq
  rw [usize_to_c_int_small len hl, usize_to_c_int_small _ hf] at heq
  exact hne (by exact_mod_cast heq)

/-- C10 witness: at feature `"dlig"` with the inconsistent declared length 2,
the engine receives 2, not the byte length 4. -/
theorem C10_feature_len_forwarded_witness :
    (Raqm.add_font_feature testEngine testRaqm "dlig" 2).2 =
      [.add_font_feature testRaqm.ptr "dlig" (usize_to_c_int 2)] ∧
    ((2 : Nat) ≠ "dlig".utf8ByteSize ∧ (2 : Nat) < 2 ^ 31 ∧
      "dlig".utf8ByteSize < 2 ^ 31) ∧
    usize_to_c_int 2 ≠ usize_to_c_int "dlig".utf8ByteSize :=
  ⟨(C10_feature_len_forwarded testEngine testRaqm "dlig" 2).1,
   ⟨by decide, by decide, by decide⟩,
   (C10_feature_len_forwarded testEngine testRaqm "dlig" 2).2.2
     (by decide) (by decide) (by decide)⟩

/-- C6: `glyphs()` fails with `GetGlyphsFailed` exactly when the engine
reports a null array; otherwise it succeeds with one converted record per
engine record — the reported count of them, pointwise `Glyph::from` of the
engine record, the font reference kept as the raw face pointer. -/
theorem C6_glyphs_retrieval (E : EngineIface) (rq : Raqm) :
    ((Raqm.glyphs E rq).1 = .error .GetGlyphsFailed ↔
      E.get_glyphs rq.ptr = none) ∧
    ∀ arr, E.get_glyphs rq.ptr = some arr →
      (Raqm.glyphs E rq).1 = .ok (arr.map Glyph.ofRaw) ∧
      (arr.map Glyph.ofRaw).length = arr.length ∧
      (∀ k, (arr.map Glyph.ofRaw).get? k = (arr.get? k).map Glyph.ofRaw) ∧
      ∀ g ∈ arr, (Glyph.ofRaw g).face = g.ftface := by
  constructor
  · simp only [Raqm.glyphs, Raqm.get_glyphs_mut_ptr]
    cases E.get_glyphs rq.ptr <;> simp
  · intro arr harr
    refine ⟨?_, by simp, ?_, ?_⟩
    · simp [Raqm.glyphs, Raqm.get_glyphs_mut_ptr, harr]
    · intro k
      simp [List.get?_eq_getElem?]
    · intro g _
      rfl

/-- C6 witness: the retrieval evaluated against the concrete test engine,
whose glyph array holds one record. -/
theorem C6_glyphs_retrieval_witness :
    testEngine.get_glyphs testRaqm.ptr = some [testRawGlyph] ∧
    (Raqm.glyphs testEngine testRaqm).1 = .ok [Glyph.ofRaw testRawGlyph] ∧
    ([testRawGlyph].map Glyph.ofRaw).length = 1 :=
  ⟨rfl,
   ((C6_glyphs_retrieval testEngine testRaqm).2 [testRawGlyph] rfl).1,
   ((C6_glyphs_retrieval testEngine testRaqm).2 [testRawGlyph] rfl).2.1⟩

/-- A freshly created engine session: `layout()` has not run. -/
def freshEngineState : EngineState :=
  { laidOut := false, glyphArr := [], clusters := [] }

/-- First cluster of the concrete laid-out line: character 0, glyph extent
[0, 10), left-to-right. -/
def cluster0 : ClusterExt :=
  { charIndex := 0, xStart := 0, xEnd := 10, y := 0, rtl := false }

/-- Second cluster of the concrete laid-out line: character 1, glyph extent
[10, 20), left-to-right. -/
def cluster1 : ClusterExt :=
  { charIndex := 1, xStart := 10, xEnd := 20, y := 0, rtl := false }

/-- A concrete laid-out engine session over a two-character left-to-right
line. -/
def laidOutState : EngineState :=
  { laidOut := true, glyphArr := [testRawGlyph],
    clusters := [cluster0, cluster1] }

/-- C2 counterexample: on a session where layout has not run, `glyphs()`
returns `Err(GetGlyphsFailed)` — not `Err(Failed)` as the claim states for
every query operation. -/
theorem C2_glyphs_not_failed_counterexample :
    freshEngineState.laidOut = false ∧
    (Raqm.glyphs (freshEngineState.iface testEngine) testRaqm).1 =
      .error .GetGlyphsFailed ∧
    (Raqm.glyphs (freshEngineState.iface testEngine) testRaqm).1 ≠
      .error .Failed := by
  refine ⟨rfl, rfl, ?_⟩
  intro h
  rw [show (Raqm.glyphs (freshEngineState.iface testEngine) testRaqm).1 =
        .error .GetGlyphsFailed from rfl] at h
  injection h with h2
  cases h2

/-- C2 (amended): before `layout()` has succeeded, every query operation
fails and returns no data — `index_to_position` and `position_to_index` with
`Err(Failed)`, `glyphs()` with `Err(GetGlyphsFailed)`. -/
theorem C2_pre_layout_queries_fail (s : EngineState) (E0 : EngineIface)
    (rq : Raqm) (i : Nat) (x y : Int) (h : s.laidOut = false) :
    (Raqm.index_to_position (s.iface E0) rq i).1 = .error .Failed ∧
    (Raqm.position_to_index (s.iface E0) rq x y).1 = .error .Failed ∧
    (Raqm.glyphs (s.iface E0) rq).1 = .error .GetGlyphsFailed := by
  refine ⟨?_, ?_, ?_⟩
  · simp [Raqm.index_to_position, EngineState.iface,
      EngineState.index_to_position_model, h, check_success, Except.map]
  · simp [Raqm.position_to_index, EngineState.iface,
      EngineState.position_to_index_model, h, check_success, Except.map]
  · simp [Raqm.glyphs, Raqm.get_glyphs_mut_ptr, EngineState.iface,
      EngineState.get_glyphs_model, h]

/-- C2 witness: the amended pre-layout behavior on the fresh session. -/
theorem C2_pre_layout_queries_fail_witness :
    freshEngineState.laidOut = false ∧
    ((Raqm.index_to_position (freshEngineState.iface testEngine) testRaqm 0).1 =
        .error .Failed ∧
      (Raqm.position_to_index (freshEngineState.iface testEngine) testRaqm 0 0).1 =
        .error .Failed ∧
      (Raqm.glyphs (freshEngineState.iface testEngine) testRaqm).1 =
        .error .GetGlyphsFailed) :=
  ⟨rfl, C2_pre_layout_queries_fail freshEngineState testEngine testRaqm 0 0 0 rfl⟩

/-- Horizontal distance from a position x to a cluster's glyph extent
[xStart, xEnd): zero inside, the gap to the nearer edge outside.  Used to
state the claim's "nearest boundary character" reading. -/
def ClusterExt.xDist (c : ClusterExt) (x : Int) : Int :=
  max 0 (max (c.xStart - x) (x - c.xEnd + 1))

/-- C3 counterexample: on the laid-out two-character line, the position
(-5, 0) lies outside every glyph extent and is strictly nearer to the first
character (distance 5) than to the last (distance 16); yet the code returns
the last character's index 1, not the nearest boundary character 0. -/
theorem C3_outside_not_nearest_counterexample :
    laidOutState.laidOut = true ∧
    laidOutState.clusters = [cluster0, cluster1] ∧
    (decide (cluster0.xStart ≤ -5) && decide ((-5 : Int) < cluster0.xEnd)) = false ∧
    (decide (cluster1.xStart ≤ -5) && decide ((-5 : Int) < cluster1.xEnd)) = false ∧
    cluster0.xDist (-5) < cluster1.xDist (-5) ∧
    (Raqm.position_to_index (laidOutState.iface testEngine) testRaqm (-5) 0).1 =
      .ok cluster1.charIndex ∧
    cluster1.charIndex ≠ cluster0.charIndex := by
  refine ⟨rfl, rfl, by decide, by decide, by decide, rfl, by decide⟩

/-- C3 (amended): after a successful layout, `position_to_index` never
returns `Err`; a position inside some cluster's glyph extent yields that
cluster's character index, and a position outside every extent yields the
last character's index (as the source documents), not the nearest boundary
character. -/
theorem C3_position_to_index_laid_out (s : EngineState) (E0 : EngineIface)
    (rq : Raqm) (x y : Int) (h : s.laidOut = true) :
    (∀ e, (Raqm.position_to_index (s.iface E0) rq x y).1 ≠ .error e) ∧
    (∀ c, s.clusters.find?
        (fun c2 => decide (c2.xStart ≤ x) && decide (x < c2.xEnd)) = some c →
      (Raqm.position_to_index (s.iface E0) rq x y).1 = .ok c.charIndex ∧
      c ∈ s.clusters ∧ c.xStart ≤ x ∧ x < c.xEnd) ∧
    (s.clusters.find?
        (fun c2 => decide (c2.xStart ≤ x) && decide (x < c2.xEnd)) = none →
      ∀ c, s.clusters.getLast? = some c →
        (Raqm.position_to_index (s.iface E0) rq x y).1 = .ok c.charIndex) := by
  refine ⟨?_, ?_, ?_⟩
  · intro e he
    have hb : (s.position_to_index_model x y).1 = false :=
      ((check_success_map_error_iff _ _ _).mp he).1
    rw [EngineState.position_to_index_model, if_pos h] at hb
    cases hfind : s.clusters.find?
        (fun c2 => decide (c2.xStart ≤ x) && decide (x < c2.xEnd)) with
    | some c => rw [hfind] at hb; cases hb
    | none =>
      rw [hfind] at hb
      cases hlast : s.clusters.getLast? with
      | some c => rw [hlast] at hb; cases hb
      | none => rw [hlast] at hb; cases hb
  · intro c hfind
    have hmodel : s.position_to_index_model x y = (true, c.charIndex) := by
      rw [EngineState.position_to_index_model, if_pos h, hfind]
    refine ⟨?_, List.mem_of_find?_eq_some hfind, ?_, ?_⟩
    · show (check_success (s.position_to_index_model x y).1).map
        (fun _ => (s.position_to_index_model x y).2) = .ok c.charIndex
      rw [hmodel]
      rfl
    · have := List.find?_some hfind
      simp at this
      exact this.1
    · have := List.find?_some hfind
      simp at this
      exact this.2
  · intro hfind c hlast
    have hmodel : s.position_to_index_model x y = (true, c.charIndex) := by
      rw [EngineState.position_to_index_model, if_pos h, hfind, hlast]
    show (check_success (s.position_to_index_model x y).1).map
      (fun _ => (s.position_to_index_model x y).2) = .ok c.charIndex
    rw [hmodel]
    rfl

/-- C3 witness: the amended behavior on the laid-out line, inside (x = 12 is
in character 1's extent) and outside (x = 25 yields the last character). -/
theorem C3_position_to_index_laid_out_witness :
    laidOutState.laidOut = true ∧
    (Raqm.position_to_index (laidOutState.iface testEngine) testRaqm 12 0).1 =
      .ok cluster1.charIndex ∧
    (Raqm.position_to_index (laidOutState.iface testEngine) testRaqm 25 0).1 =
      .ok cluster1.charIndex :=
  ⟨rfl,
   ((C3_position_to_index_laid_out laidOutState testEngine testRaqm 12 0
      rfl).2.1 cluster1 rfl).1,
   (C3_position_to_index_laid_out laidOutState testEngine testRaqm 25 0
      rfl).2.2 rfl cluster1 rfl⟩

/-- C4: after a successful layout, `index_to_position(index)` on success
returns the `Position` whose `index` field is the engine's snapped cluster
boundary — a cluster of the layout at minimal distance from the input index,
possibly different from it — and whose x is the cursor edge after that
character: the visual left edge (`xStart`) for a right-to-left character,
the visual right edge (`xEnd`) for a left-to-right one, at the cluster's
baseline y. -/
theorem C4_index_to_position_laid_out (s : EngineState) (E0 : EngineIface)
    (rq : Raqm) (i : Nat) (h : s.laidOut = true) (c : ClusterExt)
    (hc : snapCluster s.clusters i = some c) :
    (Raqm.index_to_position (s.iface E0) rq i).1 =
      .ok { index := c.charIndex
            x := if c.rtl then c.xStart else c.xEnd
            y := c.y } ∧
    c ∈ s.clusters ∧
    ∀ c2 ∈ s.clusters, Nat.dist c.charIndex i ≤ Nat.dist c2.charIndex i := by
  refine ⟨?_, snapCluster_mem s.clusters i c hc,
    snapCluster_nearest s.clusters i c hc⟩
  have hmodel : s.index_to_position_model i =
      (true, c.charIndex, if c.rtl then c.xStart else c.xEnd, c.y) := by
    rw [EngineState.index_to_position_model, if_pos h, hc]
  show (check_success (s.index_to_position_model i).1).map
    (fun _ => ({ index := (s.index_to_position_model i).2.1,
                 x := (s.index_to_position_model i).2.2.1,
                 y := (s.index_to_position_model i).2.2.2 } : Position)) =
    .ok { index := c.charIndex, x := if c.rtl then c.xStart else c.xEnd,
          y := c.y }
  rw [hmodel]
  rfl

/-- C4 witness: on the laid-out two-character line, querying input index 5
snaps to the nearer cluster boundary (character 1) and returns the cursor at
that left-to-right character's right edge — and the returned index 1 differs
from the input 5. -/
theorem C4_index_to_position_laid_out_witness :
    laidOutState.laidOut = true ∧
    snapCluster laidOutState.clusters 5 = some cluster1 ∧
    (Raqm.index_to_position (laidOutState.iface testEngine) testRaqm 5).1 =
      .ok { index := cluster1.charIndex
            x := if cluster1.rtl then cluster1.xStart else cluster1.xEnd
            y := cluster1.y } ∧
    cluster1.charIndex ≠ 5 :=
  ⟨rfl, by decide,
   (C4_index_to_position_laid_out laidOutState testEngine testRaqm 5 rfl
      cluster1 (by decide)).1,
   by decide⟩

/-- Modelled from the spec and the source doc comments (src/src/lib.rs lines
99-100 and 116-117): the engine applies a language tag or face to the
"len-number of characters starting at start", i.e. to the text-unit indices
in [start, start + len). -/
def engineRangeCovers (start len i : Nat) : Bool :=
  decide (start ≤ i) && decide (i < start + len)

/-- The claim's reading of the range arguments: the third argument is an
exclusive end index, the attribute applying to [start, end). -/
def claimRangeCovers (start stop i : Nat) : Bool :=
  decide (start ≤ i) && decide (i < stop)

/-- C5 counterexample: with start = 2, third argument 3 and text length 5
(so the claim's precondition start ≤ end ≤ length holds), the engine applies
the attribute to index 4 — inside [2, 2+3) — while the claim's range [2, 3)
excludes it. -/
theorem C5_range_arg_counterexample :
    ((2 : Nat) ≤ 3 ∧ (3 : Nat) ≤ 5) ∧
    engineRangeCovers 2 3 4 = true ∧
    claimRangeCovers 2 3 4 = false := by
  decide

/-- C5 (amended): `set_language(tag, start, len)` and
`set_freetype_face_range(face, start, len)` forward `start` and the last
argument verbatim to the engine, which treats that argument as a count of
text units, applying the attribute to exactly the half-open range
[start, start + len) — the argument is a length, not an exclusive end
index. -/
theorem C5_range_is_start_plus_len (E : EngineIface) (rq : Raqm)
    (lang : String) (face start len i : Nat) :
    (Raqm.set_language E rq lang start len).2 =
      [.set_language rq.ptr lang start len] ∧
    (Raqm.set_freetype_face_range E rq face start len).2 =
      [.set_freetype_face_range rq.ptr face start len] ∧
    (engineRangeCovers start len i = true ↔ start ≤ i ∧ i < start + len) := by
  refine ⟨rfl, rfl, ?_⟩
  simp [engineRangeCovers]

/-- C5 witness: the forwarding and range semantics at start = 2, len = 3,
index 4. -/
theorem C5_range_is_start_plus_len_witness :
    (Raqm.set_language testEngine testRaqm "en" 2 3).2 =
      [.set_language testRaqm.ptr "en" 2 3] ∧
    (engineRangeCovers 2 3 4 = true ↔ 2 ≤ 4 ∧ 4 < 2 + 3) :=
  ⟨(C5_range_is_start_plus_len testEngine testRaqm "en" 5 2 3 4).1,
   (C5_range_is_start_plus_len testEngine testRaqm "en" 5 2 3 4).2.2⟩
